import Mathlib

/-!
Verification development for the Outfitted express backend.

The definitions below are a shallow embedding of the JavaScript source
(`server.js` and its variants).  The external Airtable record store is
modelled as an in-memory list of records per table; a store query by
`filterByFormula` is modelled by the predicate the formula denotes.  The
external OpenAI completion backend is modelled by its outcome: either the
text it produced or the error value the client library threw.  All JS
string operations (`trim`, `toLowerCase`, `replace`, `indexOf`,
`lastIndexOf`, `slice`) are modelled character-exactly on `List Char`
(ASCII case folding).
-/

namespace Outfitted

/-! ### Characters and JS string primitives -/

/-- Backtick character (code 96). -/
def btick : Char := Char.ofNat 96

/-- Left curly brace character (code 123). -/
def lbrace : Char := Char.ofNat 123

/-- Right curly brace character (code 125). -/
def rbrace : Char := Char.ofNat 125

/-- Single-quote character (code 39). -/
def squote : Char := Char.ofNat 39

/-- Backslash character (code 92). -/
def bslash : Char := Char.ofNat 92

/-- Whitespace test used by JS `String.prototype.trim` (ASCII portion). -/
def wsChar (c : Char) : Bool := c.isWhitespace

/-- Strip leading and trailing whitespace from a character list (JS `trim`). -/
def trimList (l : List Char) : List Char :=
  ((l.dropWhile wsChar).reverse.dropWhile wsChar).reverse

/-- JS `String.prototype.trim` on strings. -/
def jsTrim (s : String) : String := ⟨trimList s.data⟩

/-- Does `hay` start with `needle`? -/
def startsWithL (needle hay : List Char) : Bool :=
  match needle, hay with
  | [], _ => true
  | _ :: _, [] => false
  | n :: ns, h :: hs => n == h && startsWithL ns hs

/-- Substring containment, the semantics of JS `indexOf(...) >= 0` and of the
Airtable `FIND` formula being non-zero. -/
def containsL (needle : List Char) : List Char → Bool
  | [] => needle.isEmpty
  | h :: hs => startsWithL needle (h :: hs) || containsL needle hs

/-- ASCII lower-casing of a string into a character list (JS `toLowerCase`). -/
def lowerData (s : String) : List Char := s.data.map Char.toLower

/-- The `esc` utility of the server (line 120 of the main variant):
`String(s).replace(/'/g, "\\'")` — each single quote becomes backslash-quote. -/
def escL : List Char → List Char
  | [] => []
  | c :: cs => (if c == squote then [bslash, squote] else [c]) ++ escL cs

/-- String-level `esc`. -/
def esc (s : String) : String := ⟨escL s.data⟩

/-- JS `getUid`: `String(req.header('x-user-id') || '').trim()`; a missing
header is the empty string. -/
def getUid (hdr : Option String) : String := jsTrim (hdr.getD "")

/-- JS `getUserId`: `(req.header('x-user-id') || req.query.userId || '')
.toString().trim() || null`. -/
def getUserId (hdr qUid : Option String) : Option String :=
  let raw :=
    match hdr with
    | some h => if h = "" then qUid.getD "" else h
    | none => qUid.getD ""
  let t := jsTrim raw
  if t = "" then none else some t

/-! ### The Clothing Items table -/

/-- A record of the `Clothing Items` Airtable table, with the fields the
server reads under the default configuration.  A `none` field is a field
absent from the record (Airtable omits blank fields). -/
structure ClosetRecord where
  id : String
  name : Option String
  category : Option String
  color : Option String
  brand : Option String
  photo : Option String
  userId : Option String
deriving DecidableEq, Repr

/-- Model of `tbCloset.find(id)`: the record with the given record id. -/
def findRec (store : List ClosetRecord) (rid : String) : Option ClosetRecord :=
  store.find? (fun r => r.id == rid)

/-- Split a list of record ids into the batches of at most 10 built by
`fetchClosetItemsByIds` (`for (let i = 0; i < ids.length; i += 10)`). -/
def chunk10 : List String → List (List String)
  | [] => []
  | a1 :: a2 :: a3 :: a4 :: a5 :: a6 :: a7 :: a8 :: a9 :: a10 :: rest =>
    [a1, a2, a3, a4, a5, a6, a7, a8, a9, a10] :: chunk10 rest
  | l => [l]

/-- Concatenation of the per-batch query results, in batch order. -/
def concatMapB (f : α → List β) : List α → List β
  | [] => []
  | a :: as => f a ++ concatMapB f as

/-- `fetchClosetItemsByIds` (main variant, lines 133-143): for each batch of
at most 10 ids, query the closet table with
`OR(RECORD_ID() = 'id1', ...)` — i.e. all records whose id is in the batch,
in store order — and concatenate the pages. -/
def fetchClosetItemsByIds (store : List ClosetRecord) (ids : List String) : List ClosetRecord :=
  concatMapB (fun b => store.filter (fun r => b.contains r.id)) (chunk10 ids)

/-! ### GET /api/closet (list/search, main variant lines 336-371) -/

/-- The Airtable formula `FIND(LOWER("q"), LOWER(\x7bItem Name\x7d))` is
truthy iff the lower-cased query occurs in the lower-cased item name
(a blank name field reads as the empty string). -/
def nameFind (q : String) (r : ClosetRecord) : Bool :=
  containsL (lowerData q) (lowerData (r.name.getD ""))

/-- The scope formula
`OR(\x7bUser Id\x7d='uid', \x7bUser Id\x7d=BLANK())` is truthy iff the
record is owned by `uid` or is unowned. -/
def scopeMatch (uid : String) (r : ClosetRecord) : Bool :=
  r.userId.getD "" == uid || r.userId.getD "" == ""

/-- `GET /api/closet`: the records returned by the select.  The name filter
applies when `q` is truthy, the scope filter when `getUserId` yields a
user id; both present are combined with `AND`.  `pageSize` only chunks the
pagination of `.all()` and never truncates, so it is not modelled. -/
def listCloset (hdr qUid : Option String) (q : Option String) (store : List ClosetRecord) :
    List ClosetRecord :=
  let uid := getUserId hdr qUid
  store.filter (fun r =>
    (match q with
     | none => true
     | some qs => if qs = "" then true else nameFind qs r)
    && (match uid with
        | none => true
        | some u => scopeMatch u r))

/-- The C4 claim's description of the same route, taken from the spec's
words: items matching the search that are visible, PLUS every unowned item
regardless of its name. -/
def listClosetClaimC4 (u : String) (store : List ClosetRecord) : List ClosetRecord :=
  store.filter (fun r =>
    (nameFind "shirt" r && scopeMatch u r) || r.userId.getD "" == "")

/-! ### PUT /api/closet/:id and DELETE /api/closet/:id (lines 398-444) -/

/-- A parsed `UpdateClosetItemSchema` body.  For `name`/`category`/`color`/
`brand` the server only writes the field when the value is a string
(`!= null`), so `none` covers both an absent and a `null` value; for
`imageUrl` it distinguishes absent (`none`) from `null` (`some none`). -/
structure ClosetPatch where
  name : Option String
  category : Option String
  color : Option String
  brand : Option String
  imageUrl : Option (Option String)
deriving DecidableEq, Repr

/-- Field assignment performed by the update route on the found record. -/
def applyPatch (p : ClosetPatch) (r : ClosetRecord) : ClosetRecord :=
  { r with
    name := match p.name with | some v => some v | none => r.name
    category := match p.category with | some v => some v | none => r.category
    color := match p.color with | some v => some v | none => r.color
    brand := match p.brand with | some v => some v | none => r.brand
    photo := match p.imageUrl with
      | none => r.photo
      | some none => none
      | some (some u) => some u }

/-- `PUT /api/closet/:id`: fetch the record; if
`(current.fields['User Id'] || '') !== uid` respond `403 FORBIDDEN` with no
mutation; otherwise update.  A failing `find` surfaces through the error
handler as a 500 `INTERNAL_ERROR`. -/
def putCloset (hdr : Option String) (rid : String) (p : ClosetPatch)
    (store : List ClosetRecord) : (Nat × Option String) × List ClosetRecord :=
  let uid := getUid hdr
  match findRec store rid with
  | none => ((500, some "INTERNAL_ERROR"), store)
  | some r =>
    if r.userId.getD "" = uid then
      ((200, none), store.map (fun x => if x.id == rid then applyPatch p x else x))
    else ((403, some "FORBIDDEN"), store)

/-- `DELETE /api/closet/:id`: same ownership check, then destroy. -/
def deleteCloset (hdr : Option String) (rid : String)
    (store : List ClosetRecord) : (Nat × Option String) × List ClosetRecord :=
  let uid := getUid hdr
  match findRec store rid with
  | none => ((500, some "INTERNAL_ERROR"), store)
  | some r =>
    if r.userId.getD "" = uid then
      ((204, none), store.filter (fun x => !(x.id == rid)))
    else ((403, some "FORBIDDEN"), store)

/-! ### POST /api/orders (idempotent create, lines 619-646) -/

/-- A parsed `CreateOrderSchema` body (all fields validated non-empty where
the schema requires it; `note` defaults to the empty string). -/
structure OrderReq where
  userId : String
  outfitId : String
  fulfillment : String
  note : String
  idemKey : String
deriving DecidableEq, Repr

/-- A record of the `Orders` table. -/
structure OrderRecord where
  id : String
  userId : String
  outfit : List String
  status : String
  fulfillment : String
  note : String
  idemKey : String
deriving DecidableEq, Repr

/-- The idempotency lookup:
`tbOrders.select(maxRecords 1, 'Idempotency Key' = safeKey).firstPage()`.
`safeKey` is the key with quotes escaped for interpolation; the formula
denotes equality with the raw key. -/
def findByIdemKey (orders : List OrderRecord) (key : String) : Option OrderRecord :=
  orders.find? (fun o => o.idemKey == key)

/-- `POST /api/orders`: idempotency check first (`200` with the existing
record), then outfit existence (`404 OUTFIT_NOT_FOUND`), then create with
status `pending` (`201`).  `genId` is the record id the store assigns to a
newly created record.  The response carries the record id and fields. -/
def createOrder (orders : List OrderRecord) (outfitIds : List String)
    (genId : String) (r : OrderReq) :
    (Nat × Option (String × OrderRecord)) × List OrderRecord :=
  match findByIdemKey orders r.idemKey with
  | some ex => ((200, some (ex.id, ex)), orders)
  | none =>
    if outfitIds.contains r.outfitId then
      let newRec : OrderRecord :=
        ⟨genId, r.userId, [r.outfitId], "pending", r.fulfillment, r.note, r.idemKey⟩
      ((201, some (genId, newRec)), orders ++ [newRec])
    else ((404, none), orders)

/-! ### POST /api/outfits/save and POST /api/outfits/suggest -/

/-- A parsed `SaveOutfitSchema` body (`title` non-empty, `itemIds` non-empty,
the rest optional). -/
structure SaveBody where
  title : String
  itemIds : List String
  occasion : Option String
  style : Option String
  weather : Option String
  reasoning : Option String
  palette : Option (List String)
  photoUrl : Option String
deriving DecidableEq, Repr

/-- The fields written into a created `Outfits` record. -/
structure OutfitFieldsRec where
  title : String
  items : List String
  occasion : String
  style : String
  weather : String
  reasoning : String
  palette : String
  userId : String
  photo : Option String
deriving DecidableEq, Repr

/-- `Array.isArray(palette) ? palette.join(', ') : ''`. -/
def joinPalette : Option (List String) → String
  | some l => String.intercalate ", " l
  | none => ""

/-- The truthiness guard `if (photoUrl) fields[PHOTO] = ...`: an absent or
empty url writes no photo field. -/
def photoOf : Option String → Option String
  | some p => if p = "" then none else some p
  | none => none

/-- `POST /api/outfits/save` (main variant lines 494-529): resolve
the supplied ids, compare counts, either `400 ITEMS_NOT_FOUND` with
`details.requested`/`details.found` and no creation, or create the record
and answer `201`.  The result is `(status, error code, details)` and the
updated Outfits table. -/
def saveOutfit (closet : List ClosetRecord) (outfits : List OutfitFieldsRec)
    (hdr qUid : Option String) (b : SaveBody) :
    (Nat × Option String × Option (Nat × Nat)) × List OutfitFieldsRec :=
  let uid := getUserId hdr qUid
  let items := fetchClosetItemsByIds closet b.itemIds
  if items.length = b.itemIds.length then
    ((201, none, none),
      outfits ++ [⟨b.title, b.itemIds, b.occasion.getD "", b.style.getD "",
        b.weather.getD "", b.reasoning.getD "", joinPalette b.palette,
        uid.getD "", photoOf b.photoUrl⟩])
  else
    ((400, some "ITEMS_NOT_FOUND", some (b.itemIds.length, items.length)), outfits)

/-- One outfit object of the AI response's `outfits` array. -/
structure AIOutfit where
  name : String
  items : List String
  reasoning : Option String
  palette : Option (List String)
  preview : Option String
deriving DecidableEq, Repr

/-- The persistence loop of `POST /api/outfits/suggest` (main variant lines
469-487): for each AI outfit, a record is created whose `Items` link field
is `items.map(i => i.id)` — the resolved input items — while the AI's own
`items` array is never read. -/
def suggestPersist (closet : List ClosetRecord) (itemIds : List String)
    (uid occasion : String) (style weather : Option String)
    (outfits : List AIOutfit) : List OutfitFieldsRec :=
  let items := fetchClosetItemsByIds closet itemIds
  outfits.map (fun o =>
    ⟨o.name, items.map (fun i => i.id), occasion, style.getD "", weather.getD "",
      o.reasoning.getD "", joinPalette o.palette, uid, photoOf o.preview⟩)

/-! ### Filter formulas interpolating the user id (C8) -/

/-- The filter formula built by `GET /api/outfits/archive` (main variant
line 537): `\x7bUser Id\x7d='uid'` with the RAW uid interpolated (no `esc`). -/
def archiveFilterFormula (uid : String) : List Char :=
  [lbrace] ++ "User Id".data ++ [rbrace, '='] ++ [squote] ++ uid.data ++ [squote]

/-- The same formula with the uid passed through `esc` first, as the other
routes do (e.g. the closet scope filter on line 346). -/
def escapedUserFormula (uid : String) : List Char :=
  [lbrace] ++ "User Id".data ++ [rbrace, '='] ++ [squote] ++ escL uid.data ++ [squote]

/-! ### The AI suggestion client (generateOutfitsWithAI) -/

/-- Newline character (code 10). -/
def nlChar : Char := Char.ofNat 10

/-- The seven-character token removed by the fence regex, three backticks
followed by `json`. -/
def jsonTok : List Char := [btick, btick, btick, 'j', 's', 'o', 'n']

/-- The bare three-backtick fence token. -/
def fenceTok : List Char := [btick, btick, btick]

/-- Effect of `s.replace(/```json|```/g, '')`: scan left to right; at each
position remove the longer token first (the regex alternation tries
` ```json ` before ` ``` `), otherwise keep the character. -/
def stripFences : List Char → List Char
  | [] => []
  | c :: cs =>
    if (c :: cs).take 7 = jsonTok then stripFences (cs.drop 6)
    else if (c :: cs).take 3 = fenceTok then stripFences (cs.drop 2)
    else c :: stripFences cs
termination_by l => l.length
decreasing_by
  all_goals (simp only [List.length_drop, List.length_cons]; omega)

/-- The text after fence stripping and trimming, as `extractJson` computes
before locating the braces. -/
def trimmedCore (l : List Char) : List Char := trimList (stripFences l)

/-- JS `indexOf` of the first character satisfying `p` (`lastIndexOf` is
this on the reversed list). -/
def idxOf? (p : Char → Bool) : List Char → Option Nat
  | [] => none
  | c :: cs => if p c then some 0 else (idxOf? p cs).map (· + 1)

/-- The string-processing part of `extractJson` (main variant lines
224-230): strip fences, trim, and cut from the first `\x7b` to the last
`\x7d`; `none` when either brace is missing. -/
def extractCore (l : List Char) : Option (List Char) :=
  let t := trimmedCore l
  match idxOf? (fun c => c == lbrace) t, idxOf? (fun c => c == rbrace) t.reverse with
  | some a, some k => some ((t.drop a).take (t.length - k - a))
  | _, _ => none

/-- `extractJson` with the external `JSON.parse` call (and the falsy-result
guard) abstracted as `parse`: a falsy input yields `null`; a missing brace
yields `null`; a parse throw yields `null` (folded into `parse`). -/
def extractJson (parse : List Char → Option α) (l : List Char) : Option α :=
  if l = [] then none
  else
    match extractCore l with
    | none => none
    | some sub => parse sub

/-- The shape of a successfully parsed AI response document: its `outfits`
property, absent or present. -/
structure ParsedDoc where
  outfits : Option (List AIOutfit)
deriving DecidableEq, Repr

/-- A JS error value as the client code reads it: `message`, the optional
`status` and `details` set via `Object.assign`, and the optional
`response.status`, `response.data.error.message` and `response.data` of an
HTTP client error. -/
structure JsError where
  message : String
  status : Option Nat
  details : Option String
  respStatus : Option Nat
  respErrMsg : Option String
  respData : Option String
deriving DecidableEq, Repr

/-- `Object.assign(new Error('AI_JSON_PARSE_ERROR'), (status 502,
details text.slice(0, 400)))`. -/
def parseFailErr (text : List Char) : JsError :=
  ⟨"AI_JSON_PARSE_ERROR", some 502, some ⟨text.take 400⟩, none, none, none⟩

/-- `Object.assign(new Error('AI_EMPTY_OUTFITS'), (status 502))`. -/
def emptyOutfitsErr : JsError :=
  ⟨"AI_EMPTY_OUTFITS", some 502, none, none, none, none⟩

/-- Shared handling of a completion API's text: extract JSON, throw
`AI_JSON_PARSE_ERROR` when extraction fails, `AI_EMPTY_OUTFITS` when the
`outfits` array is absent or empty, else return the outfits. -/
def processText (parse : List Char → Option ParsedDoc) (text : List Char) :
    Except JsError (List AIOutfit) :=
  match extractJson parse text with
  | none => .error (parseFailErr text)
  | some doc =>
    match doc.outfits with
    | none => .error emptyOutfitsErr
    | some [] => .error emptyOutfitsErr
    | some (o :: os) => .ok (o :: os)

/-- JS `a || b` on strings (empty string is falsy). -/
def jsOrStr (a b : String) : String := if a = "" then b else a

/-- JS `a || b` on an optional numeric status (0 and undefined are falsy). -/
def jsOrNat (a : Option Nat) (b : Nat) : Nat :=
  match a with
  | some n => if n = 0 then b else n
  | none => b

/-- The `catch` wrapper of both variants:
`new Error('OPENAI_ERROR: ' + (e.response?.data?.error?.message || e.message
|| 'OpenAI error'))` assigned `status = e.status || e.response?.status ||
502` and `details = e.response?.data`. -/
def wrapErr (e : JsError) : JsError :=
  ⟨"OPENAI_ERROR: " ++ jsOrStr (e.respErrMsg.getD "") (jsOrStr e.message "OpenAI error"),
    some (jsOrNat e.status (jsOrNat e.respStatus 502)), e.respData, none, none, none⟩

/-- The part_000 fallback trigger:
`e1?.status === 403 || /not authorized/i.test(e1?.message || '')`. -/
def isAuthFail (e : JsError) : Bool :=
  e.status == some 403 || containsL "not authorized".data (e.message.data.map Char.toLower)

/-- The primary (Responses API) leg: the call either throws or yields text,
which is then extracted and validated. -/
def primaryPath (parse : List Char → Option ParsedDoc)
    (primary : Except JsError (List Char)) : Except JsError (List AIOutfit) :=
  match primary with
  | .error e => .error e
  | .ok text => processText parse text

/-- The secondary (Chat Completions API) leg, same processing. -/
def secondaryPath (parse : List Char → Option ParsedDoc)
    (secondary : Except JsError (List Char)) : Except JsError (List AIOutfit) :=
  match secondary with
  | .error e => .error e
  | .ok text => processText parse text

/-- `generateOutfitsWithAI` of the main variant (part_002 lines 232-268,
`SKIP_OPENAI` disabled): try the Responses shape; on ANY failure of that
path — call failure, parse failure or empty-outfits failure — retry the
Chat Completions shape, wrapping a failing retry in `OPENAI_ERROR: ...`.
The boolean records whether the fallback shape was attempted. -/
def generateOutfitsWithAI2 (parse : List Char → Option ParsedDoc)
    (primary secondary : Except JsError (List Char)) :
    Except JsError (List AIOutfit) × Bool :=
  match primaryPath parse primary with
  | .ok os => (.ok os, false)
  | .error _ =>
    match secondaryPath parse secondary with
    | .ok os => (.ok os, true)
    | .error e2 => (.error (wrapErr e2), true)

/-- `generateOutfitsWithAI` of the part_000 variant (lines 176-216): the
fallback runs only when the primary failure is an authorization or
capability failure (`status === 403` or message matching `not authorized`);
every other failure is wrapped and surfaced directly without a retry. -/
def generateOutfitsWithAI0 (parse : List Char → Option ParsedDoc)
    (primary secondary : Except JsError (List Char)) :
    Except JsError (List AIOutfit) × Bool :=
  match primaryPath parse primary with
  | .ok os => (.ok os, false)
  | .error e1 =>
    if isAuthFail e1 then
      match secondaryPath parse secondary with
      | .ok os => (.ok os, true)
      | .error e2 => (.error (wrapErr e2), true)
    else (.error (wrapErr e1), false)

/-! ### Theorems: C1 (order idempotency) -/

/-- A created order is found by a later idempotency lookup for its key. -/
theorem findByIdemKey_append_of_none (orders : List OrderRecord) (nr : OrderRecord)
    (key : String) (h : findByIdemKey orders key = none) (hk : nr.idemKey = key) :
    findByIdemKey (orders ++ [nr]) key = some nr := by
  induction orders with
  | nil => simp [findByIdemKey, List.find?, hk]
  | cons o os ih =>
    simp only [findByIdemKey, List.cons_append, List.find?_cons] at h ⊢
    rcases hpo : (o.idemKey == key) with _ | _
    · simp only [hpo] at h ⊢
      exact ih h
    · simp [hpo] at h

/-- C1: order creation is idempotent.  If the idempotency key of a valid
create request is not yet in the Orders table and the referenced outfit
exists, the first request creates exactly one record with status `pending`
and responds 201, and a second request with the same key responds 200 with
the first record's id and leaves the store unchanged. -/
theorem c1_orders_idempotent (orders : List OrderRecord) (outfitIds : List String)
    (g1 g2 : String) (r1 r2 : OrderReq)
    (hfresh : findByIdemKey orders r1.idemKey = none)
    (houtfit : outfitIds.contains r1.outfitId = true)
    (hkey : r2.idemKey = r1.idemKey) :
    (createOrder orders outfitIds g1 r1).1 =
      (201, some (g1, ⟨g1, r1.userId, [r1.outfitId], "pending", r1.fulfillment, r1.note, r1.idemKey⟩))
    ∧ (createOrder orders outfitIds g1 r1).2 =
      orders ++ [⟨g1, r1.userId, [r1.outfitId], "pending", r1.fulfillment, r1.note, r1.idemKey⟩]
    ∧ (createOrder (createOrder orders outfitIds g1 r1).2 outfitIds g2 r2).1 =
      (200, some (g1, ⟨g1, r1.userId, [r1.outfitId], "pending", r1.fulfillment, r1.note, r1.idemKey⟩))
    ∧ (createOrder (createOrder orders outfitIds g1 r1).2 outfitIds g2 r2).2 =
      (createOrder orders outfitIds g1 r1).2 := by
  have hstep : createOrder orders outfitIds g1 r1 =
      ((201, some (g1, ⟨g1, r1.userId, [r1.outfitId], "pending", r1.fulfillment, r1.note, r1.idemKey⟩)),
        orders ++ [⟨g1, r1.userId, [r1.outfitId], "pending", r1.fulfillment, r1.note, r1.idemKey⟩]) := by
    have hmem : r1.outfitId ∈ outfitIds := by simpa using houtfit
    simp [createOrder, hfresh, hmem]
  have hfound : findByIdemKey
      (orders ++ [(⟨g1, r1.userId, [r1.outfitId], "pending", r1.fulfillment, r1.note, r1.idemKey⟩ : OrderRecord)])
      r2.idemKey = some ⟨g1, r1.userId, [r1.outfitId], "pending", r1.fulfillment, r1.note, r1.idemKey⟩ := by
    rw [hkey]
    exact findByIdemKey_append_of_none orders _ _ hfresh rfl
  refine ⟨by rw [hstep], by rw [hstep], ?_, ?_⟩
  · rw [hstep]
    simp [createOrder, hfound]
  · rw [hstep]
    simp [createOrder, hfound]

/-- A concrete valid order request used as the C1 witness input. -/
def order1Req : OrderReq := ⟨"u1", "of1", "delivery", "", "key-1"⟩

/-- C1 witness: the theorem applied to an empty Orders table and a store
holding outfit `of1`. -/
theorem c1_orders_idempotent_witness :
    (createOrder [] ["of1"] "o1" order1Req).1 =
      (201, some ("o1", ⟨"o1", "u1", ["of1"], "pending", "delivery", "", "key-1"⟩))
    ∧ (createOrder (createOrder [] ["of1"] "o1" order1Req).2 ["of1"] "o2" order1Req).1 =
      (200, some ("o1", ⟨"o1", "u1", ["of1"], "pending", "delivery", "", "key-1"⟩)) := by
  have h := c1_orders_idempotent [] ["of1"] "o1" "o2" order1Req order1Req
    (by decide) (by decide) rfl
  exact ⟨h.1, h.2.2.1⟩

/-! ### Theorems: C3 and C9 (closet ownership) -/

/-- C3: a `PUT` or `DELETE` on a closet item whose stored owner is non-blank
and differs from the requesting user is answered `403 FORBIDDEN` and the
store is unchanged. -/
theorem c3_ownership_forbidden (hdr : Option String) (rid : String) (p : ClosetPatch)
    (store : List ClosetRecord) (r : ClosetRecord)
    (hfind : findRec store rid = some r)
    (_howner : r.userId.getD "" ≠ "")
    (hdiff : r.userId.getD "" ≠ getUid hdr) :
    putCloset hdr rid p store = ((403, some "FORBIDDEN"), store)
    ∧ deleteCloset hdr rid store = ((403, some "FORBIDDEN"), store) := by
  constructor
  · simp [putCloset, hfind, hdiff]
  · simp [deleteCloset, hfind, hdiff]

/-- A closet item owned by user `alice`. -/
def aliceItem : ClosetRecord := ⟨"i1", some "tee", none, none, none, none, some "alice"⟩

/-- An empty update body. -/
def emptyPatch : ClosetPatch := ⟨none, none, none, none, none⟩

/-- C3 witness: user `bob` on `alice`'s item. -/
theorem c3_ownership_forbidden_witness :
    putCloset (some "bob") "i1" emptyPatch [aliceItem] = ((403, some "FORBIDDEN"), [aliceItem])
    ∧ deleteCloset (some "bob") "i1" [aliceItem] = ((403, some "FORBIDDEN"), [aliceItem]) :=
  c3_ownership_forbidden (some "bob") "i1" emptyPatch [aliceItem] aliceItem
    (by decide) (by decide) (by decide)

/-- C9: both sides of the ownership check are normalized — the header by
`getUid` (missing or blank trims to the empty string), the stored field by
`|| ''` — and `FORBIDDEN` is returned iff the normalized values differ; in
particular a request with no `x-user-id` header may mutate any unowned
item. -/
theorem c9_ownership_normalization (hdr : Option String) (rid : String) (p : ClosetPatch)
    (store : List ClosetRecord) (r : ClosetRecord)
    (hfind : findRec store rid = some r) :
    ((putCloset hdr rid p store).1 = (403, some "FORBIDDEN") ↔ r.userId.getD "" ≠ getUid hdr)
    ∧ ((deleteCloset hdr rid store).1 = (403, some "FORBIDDEN") ↔ r.userId.getD "" ≠ getUid hdr)
    ∧ getUid none = ""
    ∧ (r.userId.getD "" = "" →
        putCloset none rid p store =
          ((200, none), store.map (fun x => if x.id == rid then applyPatch p x else x))
        ∧ deleteCloset none rid store =
          ((204, none), store.filter (fun x => !(x.id == rid)))) := by
  have hg : getUid none = "" := by decide
  refine ⟨?_, ?_, hg, ?_⟩
  · by_cases hc : r.userId.getD "" = getUid hdr
    · simp [putCloset, hfind, hc]
    · simp [putCloset, hfind, hc]
  · by_cases hc : r.userId.getD "" = getUid hdr
    · simp [deleteCloset, hfind, hc]
    · simp [deleteCloset, hfind, hc]
  · intro hblank
    constructor
    · simp [putCloset, hfind, hblank, hg]
    · simp [deleteCloset, hfind, hblank, hg]

/-- An unowned (shared) closet item. -/
def sharedItem : ClosetRecord := ⟨"s1", some "scarf", none, none, none, none, none⟩

/-- C9 witness: a request with no `x-user-id` header deletes an unowned
item. -/
theorem c9_ownership_normalization_witness :
    deleteCloset none "s1" [sharedItem] =
      ((204, none), List.filter (fun x => !(x.id == "s1")) [sharedItem]) :=
  ((c9_ownership_normalization none "s1" emptyPatch [sharedItem] sharedItem
    (by decide)).2.2.2 (by decide)).2

/-! ### Theorems: C4 (closet search scoping) -/

/-- An unowned item that does not match the search term `shirt`. -/
def pantsRec : ClosetRecord := ⟨"r1", some "Blue Pants", none, none, none, none, none⟩

/-- C4 counterexample: with search `shirt`, the route drops an unowned item
whose name does not match, while the claim's description keeps it. -/
theorem c4_counterexample :
    listCloset (some "u1") none (some "shirt") [pantsRec] = []
    ∧ listClosetClaimC4 "u1" [pantsRec] = [pantsRec]
    ∧ pantsRec.userId.getD "" = "" := by decide

/-- C4 amended: with a non-blank requesting user, `GET /api/closet?q=shirt`
returns exactly the items whose name contains `shirt` case-insensitively AND
which are visible (owned by the requester or unowned); unowned items that do
not match the search are not returned. -/
theorem c4_search_and_scope (hdr qUid : Option String) (u : String)
    (store : List ClosetRecord) (huid : getUserId hdr qUid = some u) :
    listCloset hdr qUid (some "shirt") store =
      store.filter (fun r => nameFind "shirt" r && scopeMatch u r) := by
  unfold listCloset
  rw [huid]
  simp

/-- C4 witness: the amended theorem at a concrete store and user. -/
theorem c4_search_and_scope_witness :
    getUserId (some "u1") none = some "u1"
    ∧ listCloset (some "u1") none (some "shirt") [pantsRec] =
      List.filter (fun r => nameFind "shirt" r && scopeMatch "u1" r) [pantsRec] :=
  ⟨by decide, c4_search_and_scope (some "u1") none "u1" [pantsRec] (by decide)⟩

/-! ### Theorems: C7 (save-exact referential check) -/

/-- Symmetric counting: for duplicate-free lists, the elements of `A` lying
in `B` are as many as the elements of `B` lying in `A`. -/
theorem filter_contains_length_comm (A B : List String) (hA : A.Nodup) (hB : B.Nodup) :
    (A.filter (fun i => B.contains i)).length = (B.filter (fun i => A.contains i)).length := by
  have h1 : (A.filter (fun i => B.contains i)).Nodup := hA.filter _
  have h2 : (B.filter (fun i => A.contains i)).Nodup := hB.filter _
  rw [← List.toFinset_card_of_nodup h1, ← List.toFinset_card_of_nodup h2,
    List.toFinset_filter, List.toFinset_filter]
  have e1 : A.toFinset.filter (fun i => B.contains i = true) = A.toFinset ∩ B.toFinset := by
    ext x
    simp [List.mem_toFinset, List.elem_eq_mem]
  have e2 : B.toFinset.filter (fun i => A.contains i = true) = B.toFinset ∩ A.toFinset := by
    ext x
    simp [List.mem_toFinset, List.elem_eq_mem]
  rw [e1, e2, Finset.inter_comm]

/-- One Airtable batch query returns as many records as there are batch ids
present in the store (record ids are unique; the batch is duplicate-free). -/
theorem store_filter_batch_length (store : List ClosetRecord) (b : List String)
    (hstore : (store.map (fun r => r.id)).Nodup) (hb : b.Nodup) :
    (store.filter (fun r => b.contains r.id)).length
      = (b.filter (fun i => (store.map (fun r => r.id)).contains i)).length := by
  have h1 : (store.filter (fun r => b.contains r.id)).length
      = ((store.map (fun r => r.id)).filter (fun i => b.contains i)).length := by
    rw [← List.countP_eq_length_filter, ← List.countP_eq_length_filter, List.countP_map]
    rfl
  rw [h1, filter_contains_length_comm _ _ hstore hb]

/-- With duplicate-free input ids and unique store ids, the multi-batch
lookup returns exactly one record per input id present in the store. -/
theorem fetchClosetItemsByIds_length (store : List ClosetRecord)
    (hstore : (store.map (fun r => r.id)).Nodup) :
    ∀ ids : List String, ids.Nodup →
      (fetchClosetItemsByIds store ids).length
        = (ids.filter (fun i => (store.map (fun r => r.id)).contains i)).length := by
  intro ids
  induction ids using chunk10.induct with
  | case1 =>
    intro _
    rfl
  | case2 a1 a2 a3 a4 a5 a6 a7 a8 a9 a10 rest ih =>
    intro hnd
    have hsplit : (a1 :: a2 :: a3 :: a4 :: a5 :: a6 :: a7 :: a8 :: a9 :: a10 :: rest)
        = [a1, a2, a3, a4, a5, a6, a7, a8, a9, a10] ++ rest := rfl
    rw [hsplit] at hnd
    have hbatch : ([a1, a2, a3, a4, a5, a6, a7, a8, a9, a10] : List String).Nodup :=
      hnd.of_append_left
    have hrest : rest.Nodup := hnd.of_append_right
    show (store.filter (fun r : ClosetRecord =>
          ([a1,a2,a3,a4,a5,a6,a7,a8,a9,a10] : List String).contains r.id)
        ++ fetchClosetItemsByIds store rest).length = _
    rw [List.length_append, store_filter_batch_length _ _ hstore hbatch, ih hrest,
      hsplit, List.filter_append, List.length_append]
  | case3 l h1 h2 =>
    intro hnd
    show (concatMapB (fun b => store.filter (fun r : ClosetRecord => b.contains r.id))
        (chunk10 l)).length = _
    rw [chunk10.eq_3 l h1 h2]
    show (store.filter (fun r : ClosetRecord => l.contains r.id) ++ []).length = _
    rw [List.append_nil, store_filter_batch_length _ _ hstore hnd]

/-- A closet store holding the single item `x1`. -/
def teeRec : ClosetRecord := ⟨"x1", some "tee", none, none, none, none, none⟩

/-- A save body whose `itemIds` repeats the same (existing) id twice. -/
def dupBody : SaveBody := ⟨"Fit", ["x1", "x1"], none, none, none, none, none, none⟩

/-- C7 counterexample: with `itemIds = [x1, x1]` and `x1` existing, every
supplied id resolves to a ClosetItem, yet the route answers
`400 ITEMS_NOT_FOUND` with `requested 2, found 1` instead of creating. -/
theorem c7_counterexample :
    (saveOutfit [teeRec] [] none none dupBody).1 = (400, some "ITEMS_NOT_FOUND", some (2, 1))
    ∧ dupBody.itemIds.all (fun i => ([teeRec].map (fun r => r.id)).contains i) = true := by
  decide

/-- C7 amended: provided the supplied `itemIds` are pairwise distinct (and
store record ids are unique), the route fails `400 ITEMS_NOT_FOUND` with
details `(requested, found)` iff some supplied id resolves to no ClosetItem,
and creates the outfit with `201` iff every supplied id resolves. -/
theorem c7_items_not_found_iff (closet : List ClosetRecord) (outfits : List OutfitFieldsRec)
    (hdr qUid : Option String) (b : SaveBody)
    (hstore : (closet.map (fun r => r.id)).Nodup) (hids : b.itemIds.Nodup) :
    ((saveOutfit closet outfits hdr qUid b).1 =
        (400, some "ITEMS_NOT_FOUND",
          some (b.itemIds.length, (fetchClosetItemsByIds closet b.itemIds).length))
      ↔ ∃ i ∈ b.itemIds, i ∉ closet.map (fun r => r.id))
    ∧ ((saveOutfit closet outfits hdr qUid b).1.1 = 201
      ↔ ∀ i ∈ b.itemIds, i ∈ closet.map (fun r => r.id)) := by
  have hlen := fetchClosetItemsByIds_length closet hstore b.itemIds hids
  by_cases hall : ∀ i ∈ b.itemIds, i ∈ closet.map (fun r => r.id)
  · have hfl : (b.itemIds.filter
        (fun i => (closet.map (fun r => r.id)).contains i)) = b.itemIds :=
      List.filter_eq_self.mpr (fun a ha => by
        simpa [List.elem_eq_mem] using hall a ha)
    have hcond : (fetchClosetItemsByIds closet b.itemIds).length = b.itemIds.length := by
      rw [hlen, hfl]
    have hsave : (saveOutfit closet outfits hdr qUid b).1 = (201, none, none) := by
      unfold saveOutfit
      rw [if_pos hcond]
    rw [hsave]
    constructor
    · constructor
      · intro h
        simp at h
      · intro ⟨i, hi, hni⟩
        exact absurd (hall i hi) hni
    · exact ⟨fun _ => hall, fun _ => rfl⟩
  · have ⟨i, hi, hni⟩ : ∃ i ∈ b.itemIds, i ∉ closet.map (fun r => r.id) := by
      push_neg at hall
      exact hall
    have hlt : (b.itemIds.filter
        (fun i => (closet.map (fun r => r.id)).contains i)).length < b.itemIds.length := by
      refine List.length_filter_lt_length_iff_exists.mpr ⟨i, hi, ?_⟩
      simpa [List.elem_eq_mem] using hni
    have hcond : ¬ (fetchClosetItemsByIds closet b.itemIds).length = b.itemIds.length := by
      rw [hlen]
      exact Nat.ne_of_lt hlt
    have hsave : (saveOutfit closet outfits hdr qUid b).1 =
        (400, some "ITEMS_NOT_FOUND",
          some (b.itemIds.length, (fetchClosetItemsByIds closet b.itemIds).length)) := by
      unfold saveOutfit
      rw [if_neg hcond]
    rw [hsave]
    constructor
    · exact ⟨fun _ => ⟨i, hi, hni⟩, fun _ => rfl⟩
    · constructor
      · intro h
        simp at h
      · intro h
        exact absurd (h i hi) hni

/-- A save body referencing one existing and one missing id. -/
def missBody : SaveBody := ⟨"Fit", ["x1", "zz"], none, none, none, none, none, none⟩

/-- C7 witness: the amended theorem on a store holding only `x1`. -/
theorem c7_items_not_found_iff_witness :
    (saveOutfit [teeRec] [] none none missBody).1 = (400, some "ITEMS_NOT_FOUND", some (2, 1)) := by
  have h := (c7_items_not_found_iff [teeRec] [] none none missBody
    (by decide) (by decide)).1.mpr ⟨"zz", by decide, by decide⟩
  have hfl : (fetchClosetItemsByIds [teeRec] missBody.itemIds).length = 1 := by decide
  rw [hfl] at h
  exact h

/-! ### Theorems: C8 (formula escaping) -/

/-- A user id containing a single quote. -/
def quoteUid : String := "o" ++ ⟨[squote]⟩ ++ "h"

/-- C8: the archive route's filter formula interpolates the user id without
escaping — the quote of `o'h` lands raw in the formula, unlike the escaped
form `esc` would produce, contradicting the escaping invariant. -/
theorem c8_archive_uid_unescaped :
    archiveFilterFormula quoteUid =
      [lbrace] ++ "User Id".data ++ [rbrace, '=', squote, 'o', squote, 'h', squote]
    ∧ escL quoteUid.data = ['o', bslash, squote, 'h']
    ∧ archiveFilterFormula quoteUid ≠ escapedUserFormula quoteUid := by
  decide

/-! ### Theorems: C10 (suggest persists resolved item ids) -/

/-- C10: every Outfit record persisted by `POST /api/outfits/suggest` links
exactly the resolved input items, in resolution order, for every AI output —
whatever the AI listed in each outfit's own `items` array. -/
theorem c10_suggest_links_resolved_items (closet : List ClosetRecord) (itemIds : List String)
    (uid occasion : String) (style weather : Option String) (outfits : List AIOutfit) :
    (suggestPersist closet itemIds uid occasion style weather outfits).map (fun f => f.items)
      = List.replicate outfits.length
        ((fetchClosetItemsByIds closet itemIds).map (fun i => i.id)) := by
  unfold suggestPersist
  induction outfits with
  | nil => rfl
  | cons o os ih =>
    simp only [List.map_cons, List.length_cons, List.replicate_succ] at ih ⊢
    rw [ih]

/-! ### Helper lemmas on fence stripping and brace search -/

/-- Fence stripping leaves a backtick-free text unchanged. -/
theorem stripFences_of_no_btick (l : List Char) (h : btick ∉ l) : stripFences l = l := by
  induction l using stripFences.induct with
  | case1 => rw [stripFences]
  | case2 c cs h7 ih =>
    exfalso
    have h7' : c :: cs.take 6 = jsonTok := h7
    rw [jsonTok] at h7'
    injection h7' with hc _
    exact h (by rw [← hc]; exact List.mem_cons_self _ _)
  | case3 c cs h7 h3 ih =>
    exfalso
    have h3' : c :: cs.take 2 = fenceTok := h3
    rw [fenceTok] at h3'
    injection h3' with hc _
    exact h (by rw [← hc]; exact List.mem_cons_self _ _)
  | case4 c cs h7 h3 ih =>
    rw [stripFences, if_neg h7, if_neg h3, ih (fun hm => h (List.mem_cons_of_mem c hm))]

/-- A search for a character no element satisfies finds nothing. -/
theorem idxOf?_eq_none (p : Char → Bool) :
    ∀ l : List Char, (∀ x ∈ l, p x = false) → idxOf? p l = none := by
  intro l
  induction l with
  | nil => intro _; rfl
  | cons a as ih =>
    intro h
    have ha : p a = false := h a (List.mem_cons_self a as)
    simp [idxOf?, ha, ih (fun x hx => h x (List.mem_cons_of_mem a hx))]

/-- Characters surviving fence stripping come from the input. -/
theorem mem_stripFences (l : List Char) (x : Char) : x ∈ stripFences l → x ∈ l := by
  induction l using stripFences.induct with
  | case1 =>
    intro h
    rw [stripFences] at h
    exact h
  | case2 c cs h7 ih =>
    intro h
    rw [stripFences, if_pos h7] at h
    exact List.mem_cons_of_mem c (List.drop_subset _ _ (ih h) )
  | case3 c cs h7 h3 ih =>
    intro h
    rw [stripFences, if_neg h7, if_pos h3] at h
    exact List.mem_cons_of_mem c (List.drop_subset _ _ (ih h) )
  | case4 c cs h7 h3 ih =>
    intro h
    rw [stripFences, if_neg h7, if_neg h3] at h
    rcases List.mem_cons.mp h with rfl | hm
    · exact List.mem_cons_self _ _
    · exact List.mem_cons_of_mem c (ih hm)

/-- Characters of the stripped-and-trimmed text come from the input. -/
theorem mem_trimmedCore (l : List Char) (x : Char) (hx : x ∈ trimmedCore l) : x ∈ l := by
  unfold trimmedCore trimList at hx
  rw [List.mem_reverse] at hx
  have hx2 : x ∈ (List.dropWhile wsChar (stripFences l)).reverse :=
    List.dropWhile_subset _ hx
  rw [List.mem_reverse] at hx2
  exact mem_stripFences l x (List.dropWhile_subset _ hx2)

/-- With no opening (or no closing) brace anywhere in the text, extraction
yields `null` whatever the parser would do. -/
theorem extractJson_eq_none_of_no_brace {α} (parse : List Char → Option α) (l : List Char)
    (h : (∀ c ∈ l, c ≠ lbrace) ∨ (∀ c ∈ l, c ≠ rbrace)) :
    extractJson parse l = none := by
  by_cases hl : l = []
  · rw [extractJson, if_pos hl]
  · rw [extractJson, if_neg hl]
    have hcore : extractCore l = none := by
      simp only [extractCore]
      rcases h with h | h
      · have hnone : idxOf? (fun c => c == lbrace) (trimmedCore l) = none := by
          apply idxOf?_eq_none
          intro x hx
          exact beq_eq_false_iff_ne.mpr (h x (mem_trimmedCore l x hx))
        rw [hnone]
      · have hnone : idxOf? (fun c => c == rbrace) (trimmedCore l).reverse = none := by
          apply idxOf?_eq_none
          intro x hx
          rw [List.mem_reverse] at hx
          exact beq_eq_false_iff_ne.mpr (h x (mem_trimmedCore l x hx))
        rw [hnone]
        rcases idxOf? (fun c => c == lbrace) (trimmedCore l) with _ | a
        · rfl
        · rfl
    rw [hcore]

/-- On a brace-free text, both variants' shared handling throws the
parse-failure error carrying the 400-character snippet. -/
theorem processText_no_brace (parse : List Char → Option ParsedDoc) (t : List Char)
    (h : (∀ c ∈ t, c ≠ lbrace) ∨ (∀ c ∈ t, c ≠ rbrace)) :
    processText parse t = .error (parseFailErr t) := by
  rw [processText, extractJson_eq_none_of_no_brace parse t h]

/-- The parse-failure error is not an authorization failure: its status is
502 and its message does not match `not authorized`. -/
theorem isAuthFail_parseFailErr (t : List Char) : isAuthFail (parseFailErr t) = false := by
  rfl

/-- What the `catch` wrapper turns the parse-failure error into: the name is
prefixed with `OPENAI_ERROR: `, the 502 status survives, and the snippet is
dropped (the wrapper reads `e.response?.data`, not `e.details`). -/
theorem wrapErr_parseFailErr (t : List Char) :
    wrapErr (parseFailErr t) =
      ⟨"OPENAI_ERROR: AI_JSON_PARSE_ERROR", some 502, none, none, none, none⟩ := by
  rfl

/-! ### Theorems: C2 (fallback trigger policy) -/

/-- A primary-call failure that is not an authorization failure. -/
def boomErr : JsError := ⟨"upstream exploded", some 500, none, none, none, none⟩

/-- A sample outfit returned by a successful parse. -/
def okOutfit : AIOutfit := ⟨"Look", [], none, none, none⟩

/-- A parser that always succeeds with one outfit. -/
def parseOk : List Char → Option ParsedDoc := fun _ => some ⟨some [okOutfit]⟩

/-- A minimal well-braced text. -/
def braceText : List Char := [lbrace, rbrace]

/-- C2 counterexample: in the main variant, a primary failure with status
500 and no authorization wording still triggers the chat-completions
fallback — the call returns the fallback's outfits instead of surfacing the
primary failure. -/
theorem c2_counterexample :
    generateOutfitsWithAI2 parseOk (.error boomErr) (.ok braceText) = (.ok [okOutfit], true)
    ∧ isAuthFail boomErr = false := by
  constructor
  · have hsf : stripFences braceText = braceText := stripFences_of_no_btick _ (by decide)
    have hcore : extractCore braceText = some braceText := by
      simp only [extractCore, trimmedCore, hsf]
      decide
    have hne : braceText ≠ [] := by decide
    have hpt : processText parseOk braceText = .ok [okOutfit] := by
      rw [processText, extractJson, if_neg hne, hcore]
      rfl
    simp [generateOutfitsWithAI2, primaryPath, secondaryPath, hpt]
  · decide

/-- C2 amended: in the part_000 variant the fallback shape is attempted
exactly when the primary path failed with an authorization/capability error
(status 403 or a message matching `not authorized`), and any other primary
failure is wrapped and surfaced with no fallback; in the part_002 (main)
variant the fallback is attempted on EVERY primary-path failure. -/
theorem c2_fallback_policy (parse : List Char → Option ParsedDoc)
    (primary secondary : Except JsError (List Char)) :
    ((generateOutfitsWithAI0 parse primary secondary).2 =
      match primaryPath parse primary with
      | .error e1 => isAuthFail e1
      | .ok _ => false)
    ∧ ((generateOutfitsWithAI2 parse primary secondary).2 =
      match primaryPath parse primary with
      | .error _ => true
      | .ok _ => false)
    ∧ (∀ e1, primaryPath parse primary = .error e1 → isAuthFail e1 = false →
        generateOutfitsWithAI0 parse primary secondary = (.error (wrapErr e1), false)) := by
  refine ⟨?_, ?_, ?_⟩
  · cases hp : primaryPath parse primary with
    | ok os => simp [generateOutfitsWithAI0, hp]
    | error e1 =>
      cases ha : isAuthFail e1 with
      | true =>
        cases hs : secondaryPath parse secondary with
        | ok os => simp [generateOutfitsWithAI0, hp, ha, hs]
        | error e2 => simp [generateOutfitsWithAI0, hp, ha, hs]
      | false => simp [generateOutfitsWithAI0, hp, ha]
  · cases hp : primaryPath parse primary with
    | ok os => simp [generateOutfitsWithAI2, hp]
    | error e1 =>
      cases hs : secondaryPath parse secondary with
      | ok os => simp [generateOutfitsWithAI2, hp, hs]
      | error e2 => simp [generateOutfitsWithAI2, hp, hs]
  · intro e1 hp ha
    simp [generateOutfitsWithAI0, hp, ha]

/-- C2 witness: the part_000 variant surfaces the non-auth 500 failure
directly, without attempting the fallback. -/
theorem c2_fallback_policy_witness :
    generateOutfitsWithAI0 parseOk (.error boomErr) (.ok braceText) =
      (.error (wrapErr boomErr), false) :=
  (c2_fallback_policy parseOk (.error boomErr) (.ok braceText)).2.2 boomErr rfl (by decide)

/-! ### Theorems: C5 (no-brace AI text) -/

/-- The error value that actually escapes `generateOutfitsWithAI` when the
final text has no brace pair. -/
def wrappedParseError : JsError :=
  ⟨"OPENAI_ERROR: AI_JSON_PARSE_ERROR", some 502, none, none, none, none⟩

/-- A brace-free primary response text. -/
def noBraceText1 : List Char := "no json code in this reply".data

/-- A brace-free secondary response text. -/
def noBraceText2 : List Char := "still nothing useful".data

/-- A parser that always fails (never reached on brace-free text). -/
def parseNone : List Char → Option ParsedDoc := fun _ => none

/-- C5 counterexample: when both shapes return brace-free text, the error
that escapes is named `OPENAI_ERROR: AI_JSON_PARSE_ERROR`, not
`AI_JSON_PARSE_ERROR`, and it carries no snippet — the snippet only exists
on the intermediate error that the catch wrapper discards. -/
theorem c5_counterexample :
    (generateOutfitsWithAI2 parseNone (.ok noBraceText1) (.ok noBraceText2)).1 =
      .error wrappedParseError
    ∧ wrappedParseError.message ≠ "AI_JSON_PARSE_ERROR"
    ∧ wrappedParseError.details = none
    ∧ (parseFailErr noBraceText2).details = some ⟨noBraceText2.take 400⟩ := by
  have h1 : processText parseNone noBraceText1 = .error (parseFailErr noBraceText1) :=
    processText_no_brace _ _ (Or.inl (by decide))
  have h2 : processText parseNone noBraceText2 = .error (parseFailErr noBraceText2) :=
    processText_no_brace _ _ (Or.inl (by decide))
  refine ⟨?_, by decide, rfl, rfl⟩
  simp [generateOutfitsWithAI2, primaryPath, secondaryPath, h1, h2,
    wrapErr_parseFailErr, wrappedParseError]

/-- C5 amended: whenever the shape that ends up producing the final text
yields a text with no brace pair, both variants fail — never with an
uncaught exception — with the wrapped error `OPENAI_ERROR:
AI_JSON_PARSE_ERROR` of status 502 and no detail snippet (the truncated
snippet only decorates the intermediate error that the catch wrapper
drops). -/
theorem c5_wrapped_parse_error (parse : List Char → Option ParsedDoc)
    (primary secondary : Except JsError (List Char)) (t : List Char) (e1 : JsError)
    (hnb : (∀ c ∈ t, c ≠ lbrace) ∨ (∀ c ∈ t, c ≠ rbrace))
    (hp : primaryPath parse primary = .error e1) :
    generateOutfitsWithAI2 parse primary (.ok t) = (.error wrappedParseError, true)
    ∧ generateOutfitsWithAI0 parse (.ok t) secondary = (.error wrappedParseError, false)
    ∧ (isAuthFail e1 = true →
        generateOutfitsWithAI0 parse primary (.ok t) = (.error wrappedParseError, true)) := by
  have hpt : processText parse t = .error (parseFailErr t) := processText_no_brace parse t hnb
  refine ⟨?_, ?_, ?_⟩
  · simp [generateOutfitsWithAI2, hp, secondaryPath, hpt, wrapErr_parseFailErr,
      wrappedParseError]
  · simp [generateOutfitsWithAI0, primaryPath, hpt, isAuthFail_parseFailErr,
      wrapErr_parseFailErr, wrappedParseError]
  · intro ha
    simp [generateOutfitsWithAI0, hp, ha, secondaryPath, hpt, wrapErr_parseFailErr,
      wrappedParseError]

/-- C5 witness: the amended theorem at concrete failing inputs. -/
theorem c5_wrapped_parse_error_witness :
    generateOutfitsWithAI2 parseNone (.error boomErr) (.ok noBraceText2) =
      (.error wrappedParseError, true) :=
  (c5_wrapped_parse_error parseNone (.error boomErr) (.ok []) noBraceText2 boomErr
    (Or.inl (by decide)) rfl).1

/-! ### Theorems: C6 (code-fence invariance of extractJson) -/

/-- A character other than a backtick is emitted unchanged. -/
theorem stripFences_cons_of_ne (c : Char) (cs : List Char) (hc : c ≠ btick) :
    stripFences (c :: cs) = c :: stripFences cs := by
  have h7 : ¬ ((c :: cs).take 7 = jsonTok) := by
    intro h
    have h' : c :: cs.take 6 = jsonTok := h
    rw [jsonTok] at h'
    injection h' with h1 _
    exact hc h1
  have h3 : ¬ ((c :: cs).take 3 = fenceTok) := by
    intro h
    have h' : c :: cs.take 2 = fenceTok := h
    rw [fenceTok] at h'
    injection h' with h1 _
    exact hc h1
  rw [stripFences, if_neg h7, if_neg h3]

/-- Appending a newline-led suffix cannot create or destroy a fence-token
match at the front of `t`, because the tokens contain no newline. -/
theorem take_append_nl_iff (t s tok : List Char) (hnl : nlChar ∉ tok) :
    ((t ++ nlChar :: s).take tok.length = tok) ↔ (t.take tok.length = tok) := by
  constructor
  · intro h
    rcases Nat.lt_or_ge t.length tok.length with hlt | hge
    · exfalso
      rw [List.take_append_eq_append_take, List.take_of_length_le (Nat.le_of_lt hlt)] at h
      have h3 : tok.length - t.length = (tok.length - t.length - 1) + 1 := by omega
      rw [h3] at h
      apply hnl
      rw [← h]
      simp
    · rw [List.take_append_of_le_length hge] at h
      exact h
  · intro h
    have hge : tok.length ≤ t.length := by
      have hl := congrArg List.length h
      rw [List.length_take] at hl
      omega
    rw [List.take_append_of_le_length hge]
    exact h

/-- Fence stripping distributes over a newline-separated concatenation:
no token can straddle the newline. -/
theorem stripFences_append (t s : List Char) :
    stripFences (t ++ nlChar :: s) = stripFences t ++ nlChar :: stripFences s := by
  induction t using stripFences.induct with
  | case1 =>
    simp only [List.nil_append]
    rw [stripFences_cons_of_ne nlChar s (by decide)]
    rw [show stripFences [] = [] from by rw [stripFences]]
    simp
  | case2 c cs h7 ih =>
    have hlen7 : 7 ≤ (c :: cs).length := by
      have hlt := congrArg List.length h7
      rw [List.length_take] at hlt
      have hjl : jsonTok.length = 7 := rfl
      omega
    have h7' : ((c :: cs) ++ nlChar :: s).take 7 = jsonTok := by
      rw [List.take_append_of_le_length hlen7, h7]
    have h7'' : (c :: (cs ++ nlChar :: s)).take 7 = jsonTok := h7'
    have hdrop : (cs ++ nlChar :: s).drop 6 = cs.drop 6 ++ nlChar :: s :=
      List.drop_append_of_le_length (by simpa using hlen7)
    have hL : stripFences ((c :: cs) ++ nlChar :: s)
        = stripFences (cs.drop 6 ++ nlChar :: s) := by
      rw [show (c :: cs) ++ nlChar :: s = c :: (cs ++ nlChar :: s) from rfl,
        stripFences, if_pos h7'', hdrop]
    have hR : stripFences (c :: cs) = stripFences (cs.drop 6) := by
      rw [stripFences, if_pos h7]
    rw [hL, hR, ih]
  | case3 c cs h7 h3 ih =>
    have hlen3 : 3 ≤ (c :: cs).length := by
      have hlt := congrArg List.length h3
      rw [List.length_take] at hlt
      have hfl : fenceTok.length = 3 := rfl
      omega
    have hiff7 := take_append_nl_iff (c :: cs) s jsonTok (by decide)
    rw [show jsonTok.length = 7 from rfl] at hiff7
    have h7' : ¬ ((c :: cs) ++ nlChar :: s).take 7 = jsonTok := fun hco => h7 (hiff7.mp hco)
    have h7'' : ¬ (c :: (cs ++ nlChar :: s)).take 7 = jsonTok := h7'
    have h3' : ((c :: cs) ++ nlChar :: s).take 3 = fenceTok := by
      rw [List.take_append_of_le_length hlen3, h3]
    have h3'' : (c :: (cs ++ nlChar :: s)).take 3 = fenceTok := h3'
    have hdrop : (cs ++ nlChar :: s).drop 2 = cs.drop 2 ++ nlChar :: s :=
      List.drop_append_of_le_length (by simpa using hlen3)
    have hL : stripFences ((c :: cs) ++ nlChar :: s)
        = stripFences (cs.drop 2 ++ nlChar :: s) := by
      rw [show (c :: cs) ++ nlChar :: s = c :: (cs ++ nlChar :: s) from rfl,
        stripFences, if_neg h7'', if_pos h3'', hdrop]
    have hR : stripFences (c :: cs) = stripFences (cs.drop 2) := by
      rw [stripFences, if_neg h7, if_pos h3]
    rw [hL, hR, ih]
  | case4 c cs h7 h3 ih =>
    have hiff7 := take_append_nl_iff (c :: cs) s jsonTok (by decide)
    rw [show jsonTok.length = 7 from rfl] at hiff7
    have hiff3 := take_append_nl_iff (c :: cs) s fenceTok (by decide)
    rw [show fenceTok.length = 3 from rfl] at hiff3
    have h7'' : ¬ (c :: (cs ++ nlChar :: s)).take 7 = jsonTok :=
      fun hco => h7 (hiff7.mp hco)
    have h3'' : ¬ (c :: (cs ++ nlChar :: s)).take 3 = fenceTok :=
      fun hco => h3 (hiff3.mp hco)
    have hL : stripFences ((c :: cs) ++ nlChar :: s)
        = c :: stripFences (cs ++ nlChar :: s) := by
      rw [show (c :: cs) ++ nlChar :: s = c :: (cs ++ nlChar :: s) from rfl,
        stripFences, if_neg h7'', if_neg h3'']
    have hR : stripFences (c :: cs) = c :: stripFences cs := by
      rw [stripFences, if_neg h7, if_neg h3]
    rw [hL, hR, ih]
    simp

/-- Trimming absorbs the leading and trailing newline the fence wrapper
leaves behind. -/
theorem trimList_wrap (u : List Char) :
    trimList (nlChar :: (u ++ [nlChar])) = trimList u := by
  have hws : wsChar nlChar = true := by decide
  unfold trimList
  rw [List.dropWhile_cons, if_pos hws, List.dropWhile_append]
  by_cases hu : (u.dropWhile wsChar).isEmpty
  · rw [if_pos hu]
    have h1 : List.dropWhile wsChar [nlChar] = [] := by decide
    have h2 : u.dropWhile wsChar = [] := List.isEmpty_iff.mp hu
    rw [h1, h2]
  · rw [if_neg hu, List.reverse_append]
    simp only [List.reverse_cons, List.reverse_nil, List.nil_append, List.singleton_append]
    rw [List.dropWhile_cons, if_pos hws]

/-- The seven-character `json` fence token at the front is consumed whole. -/
theorem stripFences_consume_jsonTok (X : List Char) :
    stripFences (jsonTok ++ X) = stripFences X := by
  have h7 : (jsonTok ++ X).take 7 = jsonTok := by
    rw [show (7 : Nat) = jsonTok.length from rfl,
      List.take_append_of_le_length (Nat.le_refl _), List.take_length]
  have h7' : (btick :: ([btick, btick, 'j', 's', 'o', 'n'] ++ X)).take 7 = jsonTok := h7
  have hdrop : ([btick, btick, 'j', 's', 'o', 'n'] ++ X).drop 6 = X := by
    rw [show (6 : Nat) = ([btick, btick, 'j', 's', 'o', 'n'] : List Char).length from rfl,
      List.drop_left]
  rw [show jsonTok ++ X = btick :: ([btick, btick, 'j', 's', 'o', 'n'] ++ X) from rfl,
    stripFences, if_pos h7', hdrop]

/-- The bare closing fence strips to nothing. -/
theorem stripFences_fenceTok : stripFences fenceTok = [] := by
  rw [show fenceTok = btick :: [btick, btick] from rfl, stripFences,
    if_neg (by decide), if_pos (by decide),
    show ([btick, btick] : List Char).drop 2 = [] from rfl, stripFences]

/-- Wrapping a text in `` ```json `` fences does not change the stripped and
trimmed core that the brace search runs on. -/
theorem trimmedCore_fence_wrap (t : List Char) :
    trimmedCore (jsonTok ++ nlChar :: (t ++ nlChar :: fenceTok)) = trimmedCore t := by
  unfold trimmedCore
  rw [stripFences_consume_jsonTok, stripFences_cons_of_ne nlChar _ (by decide),
    stripFences_append, stripFences_fenceTok]
  exact trimList_wrap (stripFences t)

/-- Fence wrapping does not change the extracted candidate JSON substring. -/
theorem extractCore_fence_wrap (t : List Char) :
    extractCore (jsonTok ++ nlChar :: (t ++ nlChar :: fenceTok)) = extractCore t := by
  simp only [extractCore]
  rw [trimmedCore_fence_wrap]

/-- C6: for every text `t`, extraction from `t` wrapped in
`` ```json ``-newline fences returns the same parse result as extraction
from the bare `t`, for every parser. -/
theorem c6_extractJson_fence_invariant {α} (parse : List Char → Option α) (t : List Char) :
    extractJson parse (jsonTok ++ nlChar :: (t ++ nlChar :: fenceTok)) =
      extractJson parse t := by
  have hwne : jsonTok ++ nlChar :: (t ++ nlChar :: fenceTok) ≠ [] := by
    simp [jsonTok]
  by_cases ht : t = []
  · subst ht
    have hsf : stripFences ([] : List Char) = [] := by rw [stripFences]
    have h0 : extractCore ([] : List Char) = none := by
      simp [extractCore, trimmedCore, trimList, hsf, idxOf?]
    rw [extractJson, if_neg hwne, extractCore_fence_wrap, h0, extractJson, if_pos rfl]
  · rw [extractJson, if_neg hwne, extractCore_fence_wrap, extractJson, if_neg ht]

end Outfitted
